import Mathlib

/-!
# Verification of `ZoneOffset.js` (js-joda)

A shallow embedding of the `ZoneOffset` core: the total-seconds and
triple-form validators, the canonical id builder, the value type, and the
factory functions with their process-wide cache of 15-minute-aligned
instances.  JavaScript numbers are modelled as `Int` (the spec and all
claims quantify over integers); exceptions are modelled with
`Except String`; the mutable module-level cache `SECONDS_CACHE` is passed
explicitly as an association list, and a factory call returns both its
result (value or error) and the cache as it stands when the call ends, so
that a thrown exception leaves the cache it had reached visible.
-/

namespace ZoneOffsetModel

/-- Source constant `LocalTime.SECONDS_PER_HOUR`. -/
def SECONDS_PER_HOUR : Int := 3600

/-- Source constant `LocalTime.SECONDS_PER_MINUTE`. -/
def SECONDS_PER_MINUTE : Int := 60

/-- Source constant `LocalTime.MINUTES_PER_HOUR`. -/
def MINUTES_PER_HOUR : Int := 60

/-- Source constant `ZoneOffset.MAX_SECONDS = 18 * LocalTime.SECONDS_PER_HOUR`. -/
def MAX_SECONDS : Int := 18 * SECONDS_PER_HOUR

/-- The `ZoneOffset` value type: `_totalSeconds` and the eagerly built
canonical `_id`.  The `_rules` handle is out of scope of the claims and is
not modelled. -/
structure ZoneOffset where
  _totalSeconds : Int
  _id : String
  deriving DecidableEq, Repr

/-- Method `ZoneOffset.prototype.totalSeconds`. -/
def totalSeconds (z : ZoneOffset) : Int := z._totalSeconds

/-- Method `ZoneOffset.prototype.id`. -/
def id (z : ZoneOffset) : String := z._id

/-- Function `ZoneOffset._buildId(totalSeconds)`.  `MathUtil.intDiv` / `intMod`
truncate toward zero, and every operand here is the non-negative
`Math.abs(totalSeconds)`, so they are `Nat` division and modulo; JavaScript
number-to-string on a natural number yields its decimal digits, i.e.
`Nat.repr`. -/
def _buildId (totalSeconds : Int) : String :=
  if totalSeconds = 0 then
    "Z"
  else
    let absTotalSeconds : Nat := totalSeconds.natAbs
    let absHours : Nat := absTotalSeconds / 3600
    let absMinutes : Nat := (absTotalSeconds / 60) % 60
    let buf : String :=
      (if totalSeconds < 0 then "-" else "+")
      ++ (if absHours < 10 then "0" else "") ++ Nat.repr absHours
      ++ (if absMinutes < 10 then ":0" else ":") ++ Nat.repr absMinutes
    let absSeconds : Nat := absTotalSeconds % 60
    if absSeconds ≠ 0 then
      buf ++ (if absSeconds < 10 then ":0" else ":") ++ Nat.repr absSeconds
    else
      buf

/-- Function `ZoneOffset._validateTotalSeconds(totalSeconds)`: `Math.abs` on an
integer is `Int.natAbs`. -/
def _validateTotalSeconds (totalSeconds : Int) : Except String Unit :=
  if (totalSeconds.natAbs : Int) > MAX_SECONDS then
    .error "Zone offset not in valid range: -18:00 to +18:00"
  else
    .ok ()

/-- The tail of `ZoneOffset._validate` after the sign-consistency block:
the minutes range check, the seconds range check, and the exact ±18:00:00
boundary check, in source order. -/
def _validateRest (hours minutes seconds : Int) : Except String Unit :=
  if minutes.natAbs > 59 then
    .error ("Zone offset minutes not in valid range: abs(value) "
      ++ Nat.repr minutes.natAbs ++ " is not in the range 0 to 59")
  else if seconds.natAbs > 59 then
    .error ("Zone offset seconds not in valid range: abs(value) "
      ++ Nat.repr seconds.natAbs ++ " is not in the range 0 to 59")
  else if hours.natAbs = 18 ∧ (minutes.natAbs > 0 ∨ seconds.natAbs > 0) then
    .error "Zone offset not in valid range: -18:00 to +18:00"
  else
    .ok ()

/-- Function `ZoneOffset._validate(hours, minutes, seconds)`: the hours range
check, then the `hours > 0` / `hours < 0` / mixed-sign `else if` chain,
then the three remaining checks (`_validateRest`).  A JavaScript `throw`
aborts the whole function, so each check either produces the error or
falls through to the rest. -/
def _validate (hours minutes seconds : Int) : Except String Unit :=
  if hours < -18 ∨ hours > 18 then
    .error ("Zone offset hours not in valid range: value " ++ toString hours
      ++ " is not in the range -18 to 18")
  else if hours > 0 then
    if minutes < 0 ∨ seconds < 0 then
      .error "Zone offset minutes and seconds must be positive because hours is positive"
    else
      _validateRest hours minutes seconds
  else if hours < 0 then
    if minutes > 0 ∨ seconds > 0 then
      .error "Zone offset minutes and seconds must be negative because hours is negative"
    else
      _validateRest hours minutes seconds
  else if (minutes > 0 ∧ seconds < 0) ∨ (minutes < 0 ∧ seconds > 0) then
    .error "Zone offset minutes and seconds must have the same sign"
  else
    _validateRest hours minutes seconds

/-- Constructor `new ZoneOffset(totalSeconds)`: validates, then stores the total
seconds and the eagerly built id. -/
def mkZoneOffset (totalSeconds : Int) : Except String ZoneOffset :=
  match _validateTotalSeconds totalSeconds with
  | .error e => .error e
  | .ok () => .ok ⟨totalSeconds, _buildId totalSeconds⟩

/-- The module-level `SECONDS_CACHE`, keyed by total seconds. -/
def Cache := List (Int × ZoneOffset)

/-- Read access `SECONDS_CACHE[totalSecs]` (`undefined` ↦ `none`). -/
def lookupCache (c : Cache) (k : Int) : Option ZoneOffset :=
  match c with
  | [] => none
  | (k₁, z) :: rest => if k₁ = k then some z else lookupCache rest k

/-- Write access `SECONDS_CACHE[totalSecs] = result`. -/
def insertCache (c : Cache) (k : Int) (z : ZoneOffset) : Cache :=
  (k, z) :: c

/-- Factory `ZoneOffset.ofTotalSeconds(totalSeconds)`.  JavaScript `%` is the
remainder truncated toward zero (`Int.tmod`); `x % 900 === 0` also accepts
negative multiples because `-0 === 0`.  The call returns its outcome
together with the cache as left behind (unchanged when the constructor
throws, since the throw happens before the insert). -/
def ofTotalSeconds (totalSeconds : Int) (c : Cache) :
    Except String ZoneOffset × Cache :=
  if totalSeconds.tmod (15 * SECONDS_PER_MINUTE) = 0 then
    match lookupCache c totalSeconds with
    | some result => (.ok result, c)
    | none =>
      match mkZoneOffset totalSeconds with
      | .ok result => (.ok result, insertCache c totalSeconds result)
      | .error e => (.error e, c)
  else
    (mkZoneOffset totalSeconds, c)

/-- Factory `ZoneOffset.ofHoursMinutesSeconds(hours, minutes, seconds)`. -/
def ofHoursMinutesSeconds (hours minutes seconds : Int) (c : Cache) :
    Except String ZoneOffset × Cache :=
  match _validate hours minutes seconds with
  | .error e => (.error e, c)
  | .ok () =>
    ofTotalSeconds
      (hours * SECONDS_PER_HOUR + minutes * SECONDS_PER_MINUTE + seconds) c

/-- Factory `ZoneOffset.ofHours(hours)`. -/
def ofHours (hours : Int) (c : Cache) : Except String ZoneOffset × Cache :=
  ofHoursMinutesSeconds hours 0 0 c

/-- Factory `ZoneOffset.ofHoursMinutes(hours, minutes)`. -/
def ofHoursMinutes (hours minutes : Int) (c : Cache) :
    Except String ZoneOffset × Cache :=
  ofHoursMinutesSeconds hours minutes 0 c

/-- Factory `ZoneOffset.ofTotalMinutes(totalMinutes)`. -/
def ofTotalMinutes (totalMinutes : Int) (c : Cache) :
    Except String ZoneOffset × Cache :=
  ofTotalSeconds (totalMinutes * SECONDS_PER_MINUTE) c

/-- The argument of `ZoneOffset.prototype.equals`: either another
`ZoneOffset` instance or any other JavaScript value (`instanceof` fails). -/
inductive JsValue where
  | offset (z : ZoneOffset)
  | other
  deriving DecidableEq, Repr

/-- Method `ZoneOffset.prototype.equals(obj)`: reference identity short-circuits
to `true`, which in this value model is subsumed by the total-seconds
comparison; a non-`ZoneOffset` argument yields `false`. -/
def equals (this : ZoneOffset) (obj : JsValue) : Bool :=
  match obj with
  | .offset z => this._totalSeconds = z._totalSeconds
  | .other => false

/-- Method `ZoneOffset.prototype.hashCode()`. -/
def hashCode (this : ZoneOffset) : Int := this._totalSeconds

/-- Well-formedness of every cache the program can reach: entries are
inserted in `ofTotalSeconds` only after the constructor succeeded on the
key, so each stored instance was built by the constructor from its key and
that key is a valid total-seconds value. -/
def CacheWF (c : Cache) : Prop :=
  ∀ k z, lookupCache c k = some z →
    k.natAbs ≤ 64800 ∧ z = ⟨k, _buildId k⟩

/-- A two-digit zero-padded decimal rendering of `n` (exactly two digits
whenever `n ≤ 99`). -/
def pad2 (n : Nat) : String :=
  if n < 10 then "0" ++ Nat.repr n else Nat.repr n

/-- The canonical id exactly as the specification words it: `"Z"` for zero;
otherwise the sign character (`+` for positive, `-` for negative) followed
by two-digit zero-padded `absHours = |ts|/3600`, a colon, two-digit
zero-padded `absMinutes = (|ts|/60) mod 60`, and, only when
`absSeconds = |ts| mod 60` is nonzero, a colon and two-digit zero-padded
`absSeconds`.  Stated from the spec's words for comparison with the
source-derived `_buildId`. -/
def canonicalIdSpec (ts : Int) : String :=
  if ts = 0 then
    "Z"
  else
    (if 0 < ts then "+" else "-")
    ++ pad2 (ts.natAbs / 3600) ++ ":" ++ pad2 ((ts.natAbs / 60) % 60)
    ++ (if ts.natAbs % 60 ≠ 0 then ":" ++ pad2 (ts.natAbs % 60) else "")

/-- The triple-form validator exactly as the specification orders it:
seven rules checked in priority order, the first violated rule producing
the error — hours range; sign consistency for positive, negative and zero
hours; `abs(minutes) ≤ 59`; `abs(seconds) ≤ 59`; and, when
`abs(hours) = 18`, `minutes` and `seconds` both zero.  Stated from the
spec's words for comparison with the source-derived `_validate`. -/
def _validateOrdered (hours minutes seconds : Int) : Except String Unit :=
  if hours < -18 ∨ hours > 18 then
    .error ("Zone offset hours not in valid range: value " ++ toString hours
      ++ " is not in the range -18 to 18")
  else if hours > 0 ∧ (minutes < 0 ∨ seconds < 0) then
    .error "Zone offset minutes and seconds must be positive because hours is positive"
  else if hours < 0 ∧ (minutes > 0 ∨ seconds > 0) then
    .error "Zone offset minutes and seconds must be negative because hours is negative"
  else if hours = 0 ∧ ((minutes > 0 ∧ seconds < 0) ∨ (minutes < 0 ∧ seconds > 0)) then
    .error "Zone offset minutes and seconds must have the same sign"
  else if minutes.natAbs > 59 then
    .error ("Zone offset minutes not in valid range: abs(value) "
      ++ Nat.repr minutes.natAbs ++ " is not in the range 0 to 59")
  else if seconds.natAbs > 59 then
    .error ("Zone offset seconds not in valid range: abs(value) "
      ++ Nat.repr seconds.natAbs ++ " is not in the range 0 to 59")
  else if hours.natAbs = 18 ∧ ¬(minutes = 0 ∧ seconds = 0) then
    .error "Zone offset not in valid range: -18:00 to +18:00"
  else
    .ok ()

/-- The two decimal digits of `n ≤ 99`, most significant first. -/
def digits2 (n : Nat) : List Char :=
  [Nat.digitChar (n / 10), Nat.digitChar (n % 10)]

/-! ## Basic helper lemmas -/

theorem cacheWF_nil : CacheWF [] := by
  intro k z h
  simp [lookupCache] at h

theorem lookupCache_insert_self (c : Cache) (k : Int) (z : ZoneOffset) :
    lookupCache (insertCache c k z) k = some z := by
  simp [insertCache, lookupCache]

theorem mkZoneOffset_ok (ts : Int) (h : ts.natAbs ≤ 64800) :
    mkZoneOffset ts = .ok ⟨ts, _buildId ts⟩ := by
  simp only [mkZoneOffset, _validateTotalSeconds, MAX_SECONDS, SECONDS_PER_HOUR]
  rw [if_neg (by omega)]

theorem mkZoneOffset_error (ts : Int) (h : 64800 < ts.natAbs) :
    mkZoneOffset ts = .error "Zone offset not in valid range: -18:00 to +18:00" := by
  simp only [mkZoneOffset, _validateTotalSeconds, MAX_SECONDS, SECONDS_PER_HOUR]
  rw [if_pos (by omega)]

theorem lookupCache_none_of_invalid (c : Cache) (hWF : CacheWF c) (ts : Int)
    (h : 64800 < ts.natAbs) : lookupCache c ts = none := by
  cases hl : lookupCache c ts with
  | none => rfl
  | some z => exact absurd (hWF ts z hl).1 (by omega)

theorem ofTotalSeconds_fst_valid (c : Cache) (hWF : CacheWF c) (ts : Int)
    (h : ts.natAbs ≤ 64800) :
    (ofTotalSeconds ts c).1 = .ok ⟨ts, _buildId ts⟩ := by
  unfold ofTotalSeconds
  split
  · cases hl : lookupCache c ts with
    | none => simp [hl, mkZoneOffset_ok ts h]
    | some z => simp [hl, (hWF ts z hl).2]
  · simp [mkZoneOffset_ok ts h]

theorem ofTotalSeconds_invalid (c : Cache) (hWF : CacheWF c) (ts : Int)
    (h : 64800 < ts.natAbs) :
    ofTotalSeconds ts c =
      (.error "Zone offset not in valid range: -18:00 to +18:00", c) := by
  unfold ofTotalSeconds
  split
  · rw [lookupCache_none_of_invalid c hWF ts h]
    simp [mkZoneOffset_error ts h]
  · simp [mkZoneOffset_error ts h]

theorem cacheWF_insert (c : Cache) (hWF : CacheWF c) (ts : Int)
    (h : ts.natAbs ≤ 64800) :
    CacheWF (insertCache c ts ⟨ts, _buildId ts⟩) := by
  intro k z hl
  simp only [insertCache, lookupCache] at hl
  split at hl
  · cases hl
    subst_vars
    exact ⟨h, rfl⟩
  · exact hWF k z hl

theorem cacheWF_ofTotalSeconds (c : Cache) (hWF : CacheWF c) (ts : Int) :
    CacheWF (ofTotalSeconds ts c).2 := by
  unfold ofTotalSeconds
  split
  · cases hl : lookupCache c ts with
    | none =>
      cases hmk : mkZoneOffset ts with
      | ok z =>
        have hv : ts.natAbs ≤ 64800 := by
          by_contra hgt
          rw [mkZoneOffset_error ts (by omega)] at hmk
          cases hmk
        rw [mkZoneOffset_ok ts hv] at hmk
        cases hmk
        simpa using cacheWF_insert c hWF ts hv
      | error e => simpa [hl, hmk] using hWF
    | some z => simpa [hl] using hWF
  · simpa using hWF

theorem fifteen_minutes_eq : 15 * SECONDS_PER_MINUTE = (900 : Int) := by
  decide

theorem ofTotalSeconds_aligned_hit (ts : Int) (c : Cache) (z : ZoneOffset)
    (hdvd : (900 : Int) ∣ ts) (hl : lookupCache c ts = some z) :
    ofTotalSeconds ts c = (.ok z, c) := by
  unfold ofTotalSeconds
  rw [fifteen_minutes_eq, if_pos (Int.tmod_eq_zero_of_dvd hdvd), hl]

theorem ofTotalSeconds_aligned_miss (ts : Int) (c : Cache)
    (hdvd : (900 : Int) ∣ ts) (hl : lookupCache c ts = none)
    (hv : ts.natAbs ≤ 64800) :
    ofTotalSeconds ts c =
      (.ok ⟨ts, _buildId ts⟩, insertCache c ts ⟨ts, _buildId ts⟩) := by
  unfold ofTotalSeconds
  rw [fifteen_minutes_eq, if_pos (Int.tmod_eq_zero_of_dvd hdvd), hl,
    mkZoneOffset_ok ts hv]

theorem ofTotalSeconds_unaligned (ts : Int) (c : Cache)
    (hdvd : ¬ (900 : Int) ∣ ts) (hv : ts.natAbs ≤ 64800) :
    ofTotalSeconds ts c = (.ok ⟨ts, _buildId ts⟩, c) := by
  unfold ofTotalSeconds
  rw [fifteen_minutes_eq,
    if_neg (fun htm => hdvd (Int.dvd_of_tmod_eq_zero htm)),
    mkZoneOffset_ok ts hv]

theorem buildId_eq_canonicalIdSpec (ts : Int) :
    _buildId ts = canonicalIdSpec ts := by
  by_cases h0 : ts = 0
  · simp [h0, _buildId, canonicalIdSpec]
  · simp only [_buildId, canonicalIdSpec, pad2, if_neg h0]
    split_ifs <;>
      first
      | omega
      | rfl
      | ((simp only [String.append_empty, String.empty_append,
            String.append_assoc]) <;> rfl)

/-- Lemma relating `_validateRest` with the flat tail of the ordered
form: the range checks agree literally and the closing ±18:00:00 rule
guards propositionally equivalent conditions. -/
theorem rest_eq_tail (h m s : Int) :
    _validateRest h m s =
      (if m.natAbs > 59 then
        .error ("Zone offset minutes not in valid range: abs(value) "
          ++ Nat.repr m.natAbs ++ " is not in the range 0 to 59")
      else if s.natAbs > 59 then
        .error ("Zone offset seconds not in valid range: abs(value) "
          ++ Nat.repr s.natAbs ++ " is not in the range 0 to 59")
      else if h.natAbs = 18 ∧ ¬(m = 0 ∧ s = 0) then
        .error "Zone offset not in valid range: -18:00 to +18:00"
      else
        .ok ()) := by
  unfold _validateRest
  by_cases h59 : m.natAbs > 59
  · rw [if_pos h59, if_pos h59]
  · rw [if_neg h59, if_neg h59]
    by_cases s59 : s.natAbs > 59
    · rw [if_pos s59, if_pos s59]
    · rw [if_neg s59, if_neg s59]
      by_cases h18 : h.natAbs = 18 ∧ (m.natAbs > 0 ∨ s.natAbs > 0)
      · rw [if_pos h18, if_pos ⟨h18.1, by omega⟩]
      · rw [if_neg h18, if_neg (by omega : ¬(h.natAbs = 18 ∧ ¬(m = 0 ∧ s = 0)))]

theorem validate_eq_ordered (h m s : Int) :
    _validate h m s = _validateOrdered h m s := by
  unfold _validate _validateOrdered
  by_cases hr : h < -18 ∨ h > 18
  · rw [if_pos hr, if_pos hr]
  · rw [if_neg hr, if_neg hr]
    rcases lt_trichotomy h 0 with hneg | hzero | hpos
    · rw [if_neg (by omega : ¬ h > 0), if_pos hneg,
        if_neg (by omega : ¬ (h > 0 ∧ (m < 0 ∨ s < 0)))]
      by_cases hms : m > 0 ∨ s > 0
      · rw [if_pos hms, if_pos ⟨hneg, hms⟩]
      · rw [if_neg hms, if_neg (by omega : ¬ (h < 0 ∧ (m > 0 ∨ s > 0))),
          if_neg (by omega :
            ¬ (h = 0 ∧ ((m > 0 ∧ s < 0) ∨ (m < 0 ∧ s > 0))))]
        exact rest_eq_tail h m s
    · rw [if_neg (by omega : ¬ h > 0), if_neg (by omega : ¬ h < 0),
        if_neg (by omega : ¬ (h > 0 ∧ (m < 0 ∨ s < 0))),
        if_neg (by omega : ¬ (h < 0 ∧ (m > 0 ∨ s > 0)))]
      by_cases hmx : (m > 0 ∧ s < 0) ∨ (m < 0 ∧ s > 0)
      · rw [if_pos hmx, if_pos ⟨hzero, hmx⟩]
      · rw [if_neg hmx, if_neg (by omega :
          ¬ (h = 0 ∧ ((m > 0 ∧ s < 0) ∨ (m < 0 ∧ s > 0))))]
        exact rest_eq_tail h m s
    · rw [if_pos hpos]
      by_cases hms : m < 0 ∨ s < 0
      · rw [if_pos hms, if_pos ⟨hpos, hms⟩]
      · rw [if_neg hms, if_neg (by omega : ¬ (h > 0 ∧ (m < 0 ∨ s < 0))),
          if_neg (by omega : ¬ (h < 0 ∧ (m > 0 ∨ s > 0))),
          if_neg (by omega :
            ¬ (h = 0 ∧ ((m > 0 ∧ s < 0) ∨ (m < 0 ∧ s > 0))))]
        exact rest_eq_tail h m s

theorem repr_data_le_99 :
    ∀ n, n < 100 → (Nat.repr n).data
      = if n < 10 then [Nat.digitChar n] else digits2 n := by decide

theorem digitChar_inj :
    ∀ a, a < 10 → ∀ b, b < 10 → Nat.digitChar a = Nat.digitChar b → a = b := by
  decide

theorem pad0_data (n : Nat) (h : n ≤ 99) (rest : List Char) :
    ((if n < 10 then ("0" : String) else "")).data ++ ((Nat.repr n).data ++ rest)
      = digits2 n ++ rest := by
  by_cases hlt : n < 10
  · have h10 : n / 10 = 0 := by omega
    have hmod : n % 10 = n := by omega
    rw [if_pos hlt, repr_data_le_99 n (by omega), if_pos hlt]
    simp [digits2, h10, hmod]
    rfl
  · rw [if_neg hlt, repr_data_le_99 n (by omega), if_neg hlt]
    rfl

theorem padc_data (n : Nat) (h : n ≤ 99) (rest : List Char) :
    ((if n < 10 then (":0" : String) else ":")).data ++ ((Nat.repr n).data ++ rest)
      = ':' :: (digits2 n ++ rest) := by
  by_cases hlt : n < 10
  · have h10 : n / 10 = 0 := by omega
    have hmod : n % 10 = n := by omega
    rw [if_pos hlt, repr_data_le_99 n (by omega), if_pos hlt]
    simp [digits2, h10, hmod]
    rfl
  · rw [if_neg hlt, repr_data_le_99 n (by omega), if_neg hlt]
    rfl

theorem padc_data_end (n : Nat) (h : n ≤ 99) :
    ((if n < 10 then (":0" : String) else ":")).data ++ (Nat.repr n).data
      = ':' :: digits2 n := by
  have := padc_data n h []
  simpa using this

theorem buildId_data (ts : Int) (h0 : ts ≠ 0) (hle : ts.natAbs ≤ 64800) :
    (_buildId ts).data
      = (if ts < 0 then '-' else '+')
        :: (digits2 (ts.natAbs / 3600)
          ++ ':' :: digits2 (ts.natAbs / 60 % 60)
          ++ (if ts.natAbs % 60 = 0 then []
              else ':' :: digits2 (ts.natAbs % 60))) := by
  have hH : ts.natAbs / 3600 ≤ 99 := by omega
  have hM : ts.natAbs / 60 % 60 ≤ 99 := by omega
  have hS : ts.natAbs % 60 ≤ 99 := by omega
  simp only [_buildId, if_neg h0]
  by_cases hs0 : ts.natAbs % 60 = 0
  · rw [if_neg (by omega : ¬ ts.natAbs % 60 ≠ 0), if_pos hs0]
    simp only [String.data_append, List.append_assoc]
    rw [pad0_data _ hH, padc_data_end _ hM]
    by_cases hneg : ts < 0
    · rw [if_pos hneg, if_pos hneg]
      simp
    · rw [if_neg hneg, if_neg hneg]
      simp
  · rw [if_pos (by omega : ts.natAbs % 60 ≠ 0), if_neg (by omega : ¬ ts.natAbs % 60 = 0)]
    simp only [String.data_append, List.append_assoc]
    rw [pad0_data _ hH, padc_data _ hM, padc_data_end _ hS]
    by_cases hneg : ts < 0
    · rw [if_pos hneg, if_pos hneg]
      simp
    · rw [if_neg hneg, if_neg hneg]
      simp



theorem buildId_inj (ts1 ts2 : Int) (h1 : ts1.natAbs ≤ 64800)
    (h2 : ts2.natAbs ≤ 64800) (heq : _buildId ts1 = _buildId ts2) :
    ts1 = ts2 := by
  by_cases e1 : ts1 = 0 <;> by_cases e2 : ts2 = 0
  · rw [e1, e2]
  · rw [e1] at heq
    have hd := congrArg String.data heq
    rw [buildId_data ts2 e2 h2] at hd
    simp [show (_buildId 0).data = ['Z'] from rfl, digits2] at hd
  · rw [e2] at heq
    have hd := congrArg String.data heq
    rw [buildId_data ts1 e1 h1] at hd
    simp [show (_buildId 0).data = ['Z'] from rfl, digits2] at hd
  · have hd := congrArg String.data heq
    rw [buildId_data ts1 e1 h1, buildId_data ts2 e2 h2] at hd
    simp only [digits2, List.cons_append, List.nil_append,
      List.cons.injEq] at hd
    obtain ⟨hsign, hha, hhb, -, hma, hmb, htail⟩ := hd
    have hH : ts1.natAbs / 3600 = ts2.natAbs / 3600 := by
      have q1 := digitChar_inj _ (by omega) _ (by omega) hha
      have q2 := digitChar_inj _ (by omega) _ (by omega) hhb
      omega
    have hM : ts1.natAbs / 60 % 60 = ts2.natAbs / 60 % 60 := by
      have q1 := digitChar_inj _ (by omega) _ (by omega) hma
      have q2 := digitChar_inj _ (by omega) _ (by omega) hmb
      omega
    have hS : ts1.natAbs % 60 = ts2.natAbs % 60 := by
      by_cases s1 : ts1.natAbs % 60 = 0 <;> by_cases s2 : ts2.natAbs % 60 = 0
      · omega
      · rw [if_pos s1, if_neg s2] at htail
        exact absurd htail (by simp)
      · rw [if_neg s1, if_pos s2] at htail
        exact absurd htail (by simp)
      · rw [if_neg s1, if_neg s2] at htail
        simp only [List.cons.injEq] at htail
        obtain ⟨-, hsa, hsb, -⟩ := htail
        have q1 := digitChar_inj _ (by omega) _ (by omega) hsa
        have q2 := digitChar_inj _ (by omega) _ (by omega) hsb
        omega
    have habs : ts1.natAbs = ts2.natAbs := by omega
    by_cases n1 : ts1 < 0 <;> by_cases n2 : ts2 < 0
    · omega
    · rw [if_pos n1, if_neg n2] at hsign
      exact absurd hsign (by decide)
    · rw [if_neg n1, if_pos n2] at hsign
      exact absurd hsign (by decide)
    · omega

/-! ## Claim theorems -/

/-- C1: for every integer `ts` with `abs(ts) ≤ 64800`, `ofTotalSeconds(ts)`
succeeds (does not raise) and the returned offset's `totalSeconds()` equals
`ts` — on any cache the program can have reached. -/
theorem ofTotalSeconds_roundtrip_on_valid_range (ts : Int) (c : Cache)
    (hWF : CacheWF c) (h : ts.natAbs ≤ 64800) :
    ∃ z c', ofTotalSeconds ts c = (.ok z, c') ∧ totalSeconds z = ts := by
  refine ⟨⟨ts, _buildId ts⟩, (ofTotalSeconds ts c).2, ?_, rfl⟩
  rw [← ofTotalSeconds_fst_valid c hWF ts h]

theorem ofTotalSeconds_roundtrip_on_valid_range_witness :
    ∃ z c', ofTotalSeconds 64800 [] = (.ok z, c') ∧ totalSeconds z = 64800 :=
  ofTotalSeconds_roundtrip_on_valid_range 64800 [] cacheWF_nil (by decide)

/-- C2: for every integer `ts` with `abs(ts) > 64800`, `ofTotalSeconds(ts)`
fails with the invalid-offset error whose message carries
"not in valid range: -18:00 to +18:00", and no offset is created: the cache
comes out exactly as it went in. -/
theorem ofTotalSeconds_rejects_out_of_range (ts : Int) (c : Cache)
    (hWF : CacheWF c) (h : 64800 < ts.natAbs) :
    ofTotalSeconds ts c =
      (.error ("Zone offset " ++ "not in valid range: -18:00 to +18:00"), c) := by
  have hmsg : "Zone offset " ++ "not in valid range: -18:00 to +18:00"
      = "Zone offset not in valid range: -18:00 to +18:00" := by decide
  rw [hmsg]
  exact ofTotalSeconds_invalid c hWF ts h

theorem ofTotalSeconds_rejects_out_of_range_witness :
    ofTotalSeconds 64801 [] =
      (.error ("Zone offset " ++ "not in valid range: -18:00 to +18:00"), []) :=
  ofTotalSeconds_rejects_out_of_range 64801 [] cacheWF_nil (by decide)

/-- C5: every factory entry point normalizes to `ofTotalSeconds`:
`ofHours(h)` is `ofHoursMinutesSeconds(h, 0, 0)`, `ofHoursMinutes(h, m)` is
`ofHoursMinutesSeconds(h, m, 0)`, `ofHoursMinutesSeconds(h, m, s)` returns
`ofTotalSeconds(h*3600 + m*60 + s)` whenever the triple validator accepts,
and `ofTotalMinutes(tm)` returns `ofTotalSeconds(tm*60)`. -/
theorem factories_normalize_to_ofTotalSeconds (h m s tm : Int) (c : Cache) :
    ofHours h c = ofHoursMinutesSeconds h 0 0 c
    ∧ ofHoursMinutes h m c = ofHoursMinutesSeconds h m 0 c
    ∧ (_validate h m s = .ok () →
        ofHoursMinutesSeconds h m s c = ofTotalSeconds (h * 3600 + m * 60 + s) c)
    ∧ ofTotalMinutes tm c = ofTotalSeconds (tm * 60) c := by
  refine ⟨rfl, rfl, fun hv => ?_, rfl⟩
  simp only [ofHoursMinutesSeconds, hv, SECONDS_PER_HOUR, SECONDS_PER_MINUTE]

theorem factories_normalize_to_ofTotalSeconds_witness :
    ofHours 2 [] = ofHoursMinutesSeconds 2 0 0 []
    ∧ ofHoursMinutes 2 30 [] = ofHoursMinutesSeconds 2 30 0 []
    ∧ ofHoursMinutesSeconds 2 30 0 [] = ofTotalSeconds (2 * 3600 + 30 * 60 + 0) []
    ∧ ofTotalMinutes 5 [] = ofTotalSeconds (5 * 60) [] :=
  ⟨(factories_normalize_to_ofTotalSeconds 2 30 0 5 []).1,
    (factories_normalize_to_ofTotalSeconds 2 30 0 5 []).2.1,
    (factories_normalize_to_ofTotalSeconds 2 30 0 5 []).2.2.1 (by rfl),
    (factories_normalize_to_ofTotalSeconds 2 30 0 5 []).2.2.2⟩

/-- C9: when `ts` is divisible by 900 but out of range, `ofTotalSeconds(ts)`
throws and is atomic with respect to the cache: the exception comes before
the insert, the cache is unchanged, holds no entry for `ts`, and a later
valid call on that same cache still succeeds normally. -/
theorem ofTotalSeconds_failure_leaves_cache_unchanged (ts : Int) (c : Cache)
    (hWF : CacheWF c) (hdvd : (900 : Int) ∣ ts) (h : 64800 < ts.natAbs) :
    ofTotalSeconds ts c =
      (.error "Zone offset not in valid range: -18:00 to +18:00", c)
    ∧ lookupCache c ts = none
    ∧ ∀ ts2, ts2.natAbs ≤ 64800 →
        (ofTotalSeconds ts2 c).1 = .ok ⟨ts2, _buildId ts2⟩ := by
  exact ⟨ofTotalSeconds_invalid c hWF ts h,
    lookupCache_none_of_invalid c hWF ts h,
    fun ts2 h2 => ofTotalSeconds_fst_valid c hWF ts2 h2⟩

theorem ofTotalSeconds_failure_leaves_cache_unchanged_witness :
    ofTotalSeconds 65700 [] =
      (.error "Zone offset not in valid range: -18:00 to +18:00", [])
    ∧ lookupCache [] 65700 = none
    ∧ ∀ ts2, ts2.natAbs ≤ 64800 →
        (ofTotalSeconds ts2 []).1 = .ok ⟨ts2, _buildId ts2⟩ :=
  ofTotalSeconds_failure_leaves_cache_unchanged 65700 [] cacheWF_nil
    (by decide) (by decide)

/-- C6: for valid `ts` divisible by 900, `ofTotalSeconds(ts)` never raises,
the first call inserts the instance into the cache keyed by `ts` (when it
was absent), a repeated call returns exactly that cached instance with the
cache untouched, and the two calls' results are `equals`-equal; for valid
`ts` not divisible by 900, every call constructs a fresh offset and leaves
the cache unchanged (the offset is not cached). -/
theorem ofTotalSeconds_caches_aligned_offsets (ts : Int) (c : Cache)
    (hWF : CacheWF c) (hts : ts.natAbs ≤ 64800) :
    ((900 : Int) ∣ ts →
      ∃ z c1, ofTotalSeconds ts c = (.ok z, c1)
        ∧ lookupCache c1 ts = some z
        ∧ (lookupCache c ts = none → c1 = insertCache c ts z)
        ∧ ofTotalSeconds ts c1 = (.ok z, c1)
        ∧ equals z (.offset z) = true)
    ∧ (¬ (900 : Int) ∣ ts →
        ofTotalSeconds ts c = (.ok ⟨ts, _buildId ts⟩, c)) := by
  constructor
  · intro hdvd
    cases hl : lookupCache c ts with
    | some z =>
      refine ⟨z, c, ofTotalSeconds_aligned_hit ts c z hdvd hl, hl, ?_,
        ofTotalSeconds_aligned_hit ts c z hdvd hl, by simp [equals]⟩
      intro hn
      simp [hl] at hn
    | none =>
      refine ⟨⟨ts, _buildId ts⟩, insertCache c ts ⟨ts, _buildId ts⟩,
        ofTotalSeconds_aligned_miss ts c hdvd hl hts,
        lookupCache_insert_self c ts _, fun _ => rfl,
        ofTotalSeconds_aligned_hit ts _ _ hdvd (lookupCache_insert_self c ts _),
        by simp [equals]⟩
  · intro hdvd
    exact ofTotalSeconds_unaligned ts c hdvd hts

theorem ofTotalSeconds_caches_aligned_offsets_witness :
    (((900 : Int) ∣ (900 : Int) →
      ∃ z c1, ofTotalSeconds 900 [] = (.ok z, c1)
        ∧ lookupCache c1 900 = some z
        ∧ (lookupCache [] 900 = none → c1 = insertCache [] 900 z)
        ∧ ofTotalSeconds 900 c1 = (.ok z, c1)
        ∧ equals z (.offset z) = true)
    ∧ (¬ (900 : Int) ∣ (900 : Int) →
        ofTotalSeconds 900 [] = (.ok ⟨900, _buildId 900⟩, []))) :=
  ofTotalSeconds_caches_aligned_offsets 900 [] cacheWF_nil (by decide)

/-- C7: `equals` is value equality consistent with `hash`: offsets built by
`ofTotalSeconds` from valid `ts1`, `ts2` are `equals`-equal exactly when
`ts1 = ts2`; `equals` is false on any non-offset argument; `hashCode`
returns `totalSeconds` directly, so `equals`-equal offsets have equal
hashes. -/
theorem equals_is_value_equality_consistent_with_hash (ts1 ts2 : Int)
    (c : Cache) (hWF : CacheWF c) (h1 : ts1.natAbs ≤ 64800)
    (h2 : ts2.natAbs ≤ 64800) :
    ∀ z1 c1 z2 c2, ofTotalSeconds ts1 c = (.ok z1, c1) →
      ofTotalSeconds ts2 c1 = (.ok z2, c2) →
      ((equals z1 (.offset z2) = true) ↔ ts1 = ts2)
      ∧ equals z1 .other = false
      ∧ hashCode z1 = totalSeconds z1
      ∧ (equals z1 (.offset z2) = true → hashCode z1 = hashCode z2) := by
  intro z1 c1 z2 c2 e1 e2
  have hz1 : z1 = ⟨ts1, _buildId ts1⟩ := by
    have hfst := ofTotalSeconds_fst_valid c hWF ts1 h1
    rw [e1] at hfst
    exact Except.ok.inj hfst
  have hWF1 : CacheWF c1 := by
    have hp := cacheWF_ofTotalSeconds c hWF ts1
    rw [e1] at hp
    exact hp
  have hz2 : z2 = ⟨ts2, _buildId ts2⟩ := by
    have hfst := ofTotalSeconds_fst_valid c1 hWF1 ts2 h2
    rw [e2] at hfst
    exact Except.ok.inj hfst
  subst hz1 hz2
  refine ⟨by simp [equals], rfl, rfl, fun he => ?_⟩
  simp only [equals, decide_eq_true_eq] at he
  simp [hashCode, he]

theorem equals_is_value_equality_consistent_with_hash_witness :
    ((equals ⟨0, "Z"⟩ (.offset ⟨900, "+00:15"⟩) = true) ↔ (0 : Int) = 900)
    ∧ equals ⟨0, "Z"⟩ .other = false
    ∧ hashCode ⟨0, "Z"⟩ = totalSeconds ⟨0, "Z"⟩
    ∧ (equals ⟨0, "Z"⟩ (.offset ⟨900, "+00:15"⟩) = true →
        hashCode ⟨0, "Z"⟩ = hashCode ⟨900, "+00:15"⟩) :=
  equals_is_value_equality_consistent_with_hash 0 900 [] cacheWF_nil
    (by decide) (by decide) ⟨0, "Z"⟩ [(0, ⟨0, "Z"⟩)] ⟨900, "+00:15"⟩
    [(900, ⟨900, "+00:15"⟩), (0, ⟨0, "Z"⟩)] (by rfl) (by rfl)

/-- C3: for every valid `totalSeconds`, the canonical id built by the code
is exactly the spec's format — `"Z"` for zero, otherwise sign, two-digit
zero-padded hours, colon, two-digit zero-padded minutes, and a two-digit
zero-padded seconds field only when nonzero; in particular
`id(0) = "Z"`, `id(9000) = "+02:30"`, `id(-3661) = "-01:01:01"`. -/
theorem buildId_matches_spec_format (ts : Int) (h : ts.natAbs ≤ 64800) :
    _buildId ts = canonicalIdSpec ts
    ∧ _buildId 0 = "Z"
    ∧ _buildId 9000 = "+02:30"
    ∧ _buildId (-3661) = "-01:01:01" :=
  ⟨buildId_eq_canonicalIdSpec ts, rfl, rfl, rfl⟩

theorem buildId_matches_spec_format_witness :
    _buildId (-3661) = canonicalIdSpec (-3661)
    ∧ _buildId 0 = "Z"
    ∧ _buildId 9000 = "+02:30"
    ∧ _buildId (-3661) = "-01:01:01" :=
  buildId_matches_spec_format (-3661) (by decide)

/-- C4: the triple-form validator checks its seven rules in the stated
priority order, the first violated rule determining the error: it agrees
with the rule list exactly as the spec orders it, and in particular
`ofHoursMinutesSeconds(1, -1, 0)` and `ofHoursMinutesSeconds(18, 0, 1)`
both fail with the invalid-offset error. -/
theorem validate_checks_rules_in_priority_order (h m s : Int) (c : Cache) :
    _validate h m s = _validateOrdered h m s
    ∧ ofHoursMinutesSeconds 1 (-1) 0 c =
        (.error "Zone offset minutes and seconds must be positive because hours is positive",
          c)
    ∧ ofHoursMinutesSeconds 18 0 1 c =
        (.error "Zone offset not in valid range: -18:00 to +18:00", c) :=
  ⟨validate_eq_ordered h m s, rfl, rfl⟩

theorem validate_checks_rules_in_priority_order_witness :
    _validate 18 0 1 = _validateOrdered 18 0 1
    ∧ ofHoursMinutesSeconds 1 (-1) 0 [] =
        (.error "Zone offset minutes and seconds must be positive because hours is positive",
          [])
    ∧ ofHoursMinutesSeconds 18 0 1 [] =
        (.error "Zone offset not in valid range: -18:00 to +18:00", []) :=
  validate_checks_rules_in_priority_order 18 0 1 []

/-- C8: whenever the triple validator accepts `(h, m, s)`, the computed
total `h*3600 + m*60 + s` has absolute value at most 64800, so on the
`ofHoursMinutesSeconds` path the constructor's total-seconds range check
never throws. -/
theorem accepted_triple_total_within_range (h m s : Int)
    (hv : _validate h m s = .ok ()) :
    (h * 3600 + m * 60 + s).natAbs ≤ 64800
    ∧ _validateTotalSeconds (h * 3600 + m * 60 + s) = .ok () := by
  have hbounds : h.natAbs ≤ 18 ∧ m.natAbs ≤ 59 ∧ s.natAbs ≤ 59
      ∧ (h.natAbs = 18 → m = 0 ∧ s = 0) := by
    rw [validate_eq_ordered] at hv
    unfold _validateOrdered at hv
    split_ifs at hv with h1 h2 h3 h4 h5 h6 h7
    exact ⟨by omega, by omega, by omega, by omega⟩
  have habs : (h * 3600 + m * 60 + s).natAbs ≤ 64800 := by
    rcases hbounds with ⟨hh, hm, hs, h18⟩
    rcases Nat.lt_or_ge h.natAbs 18 with hlt | hge
    · omega
    · rcases h18 (by omega) with ⟨hm0, hs0⟩
      omega
  refine ⟨habs, ?_⟩
  simp only [_validateTotalSeconds, MAX_SECONDS, SECONDS_PER_HOUR]
  rw [if_neg (by omega)]

theorem accepted_triple_total_within_range_witness :
    ((18 : Int) * 3600 + 0 * 60 + 0).natAbs ≤ 64800
    ∧ _validateTotalSeconds (18 * 3600 + 0 * 60 + 0) = .ok () :=
  accepted_triple_total_within_range 18 0 0 (by rfl)

/-- C10: the canonical id builder is injective on the valid range — for
all distinct `ts1`, `ts2` with `abs(ts1) ≤ 64800` and `abs(ts2) ≤ 64800`,
the built id strings differ, so equality of offsets by `totalSeconds`
coincides with equality by id. -/
theorem buildId_injective_on_valid_range (ts1 ts2 : Int)
    (h1 : ts1.natAbs ≤ 64800) (h2 : ts2.natAbs ≤ 64800) (hne : ts1 ≠ ts2) :
    _buildId ts1 ≠ _buildId ts2 :=
  fun heq => hne (buildId_inj ts1 ts2 h1 h2 heq)

theorem buildId_injective_on_valid_range_witness :
    _buildId 0 ≠ _buildId 1 :=
  buildId_injective_on_valid_range 0 1 (by decide) (by decide) (by decide)

end ZoneOffsetModel
